import Mathlib

/-!
# Verification of the feedback-processing worker (`src/main.py`)

This file is a shallow embedding of the FastAPI/Celery feedback worker.
The embedded functions keep the names of the Python functions they model:

* `remove_bracketed_text` — `re.sub(r'【.*?】', '', text)` (main.py line 77).
* `poll_openai_run` — the backoff poll loop (main.py lines 81-105).
* `send_slack_alert`, `send_failsafe_payload`, `send_ghl_feedback` — the
  three webhook helpers (main.py lines 108-159).
* `route` — the day → (prompt, webhook URL) conditional chain at the top of
  `process_assignment` (main.py lines 171-190).
* `process_assignment` — the Celery task body (main.py lines 161-268).
* `receive_assignment` — the HTTP intake endpoint (main.py lines 271-285).

External I/O (the OpenAI client, `requests.post`, `time.sleep`) is modelled
by an `Env` record that fixes the response of every external call, and by a
trace of `Effect`s recording which external calls the task performed and in
what order.  A Python exception that escapes the task is the outcome
`Outcome.raised msg` with the message raised by the source; an exception
raised by a transport library (`requests`) and re-raised unchanged is
represented by the log message of the `except` branch that re-raises it.
-/

/-- The payload of the intake endpoint, `class AssignmentRequest(BaseModel)`
(main.py lines 69-74).  `day` is a Python `int`, hence `Int`. -/
structure AssignmentRequest where
  contact_id : String
  contact_email : String
  day : Int
  field1 : String
  field2 : String

/-- The five positional arguments handed to `process_assignment.delay`. -/
structure Submission where
  contact_id : String
  contact_email : String
  day : Int
  field1 : String
  field2 : String

/-- `run.last_error` as handled by main.py lines 219-224: either a dict
(`run.last_error.get("code", "N/A")`) or an attribute-bearing object
(`getattr(run.last_error, "code", "N/A")`); a missing key/attribute is an
absent `Option` field. -/
inductive LastError where
  | mkDict (code : Option String) (message : Option String)
  | mkObj (code : Option String) (message : Option String)
deriving DecidableEq

/-- The observable part of an OpenAI run object: its `status` string and its
optional `last_error`. -/
structure RunState where
  status : String
  last_error : Option LastError
deriving DecidableEq

/-- `latest_message.content[0].text` with its `.value` string. -/
structure MsgText where
  value : String
deriving DecidableEq

/-- One element of `latest_message.content`; `text` is `none` when the
attribute is falsy (main.py line 251). -/
structure MsgContent where
  text : Option MsgText
deriving DecidableEq

/-- One message of `client.beta.threads.messages.list(...).data`. -/
structure OAMessage where
  content : List MsgContent
deriving DecidableEq

/-- The response of `client.beta.threads.messages.list`. -/
structure MessageResponse where
  data : List OAMessage
deriving DecidableEq

/-- The process-wide webhook configuration (main.py lines 57-63). -/
structure Config where
  ghl_webhook_url_day_1 : String
  ghl_webhook_url_day_2 : String
  ghl_webhook_url_day_3 : String
  ghl_webhook_url_day_4 : String
  ghl_webhook_url_day_5 : String

/-- The behaviour of every external collaborator during one run of the task:
whether thread/run creation succeeds, the run returned by creation, the run
returned by the k-th `runs.retrieve` poll, the transport result of each
`requests.post` (`none` = the library raised, `some c` = HTTP status `c`),
and the shape of the `messages.list` response. -/
structure Env where
  create_ok : Bool
  initial_run : RunState
  retrieve : Nat → RunState
  slack_resp : Option Nat
  failsafe_resp : Option Nat
  delivery_resp : Option Nat
  list_result : Option MessageResponse

/-- One external call performed by the task, in program order. -/
inductive Effect where
  | sleep (seconds : ℚ)
  | openai_create
  | openai_retrieve
  | openai_list
  | post_slack
  | post_failsafe
  | post_ghl (url : String) (feedback : String)
deriving DecidableEq

/-- How one execution of the Celery task ends: a normal return after
successful delivery, `self.update_state(state="FAILURE")` followed by
`return` (main.py lines 234-238), or an exception escaping the task. -/
inductive Outcome where
  | success
  | failureState (code : String) (message : String)
  | raised (message : String)
deriving DecidableEq

/-! ## `remove_bracketed_text` (main.py line 77)

`re.sub(r'【.*?】', '', text)` deletes every non-overlapping, leftmost-first,
non-greedy match `【…】`.  Without `re.DOTALL` the `.` of the pattern does
not match a newline, so at each `【` the engine deletes up to the nearest
following `】` provided no `\n` lies in between (otherwise there is no match
at this `【` and the scan moves on by one character), and resumes after the
deleted span.  `removeBracketedAux` performs exactly this scan; the fuel
argument (instantiated with the length of the list, which the scan never
exceeds) only makes the recursion structural. -/

/-- Scans for the closing `】` of a match whose `【` immediately precedes
`l`: returns the suffix after the first `】`, or `none` if a `\n` (which
`.` cannot match) or the end of the string is reached first. -/
def splitClose : List Char → Option (List Char)
  | [] => none
  | c :: rest =>
    if c = '】' then some rest
    else if c = '\n' then none
    else splitClose rest

/-- The `re.sub` scan, with structural fuel. -/
def removeBracketedAux : Nat → List Char → List Char
  | _, [] => []
  | 0, l => l
  | fuel + 1, c :: rest =>
    if c = '【' then
      match splitClose rest with
      | some rest' => removeBracketedAux fuel rest'
      | none => c :: removeBracketedAux fuel rest
    else c :: removeBracketedAux fuel rest

/-- The scan at full fuel. -/
def stripL (l : List Char) : List Char := removeBracketedAux l.length l

/-- `remove_bracketed_text` of main.py line 77. -/
def remove_bracketed_text (s : String) : String := ⟨stripL s.data⟩

/-- `true` iff the text contains a match of `【.*?】`, i.e. some `【` is
followed by a `】` with no intervening newline (Python's `.` does not match
`\n`). -/
def hasMarker : List Char → Bool
  | [] => false
  | c :: rest =>
    if c = '【' then ((splitClose rest).isSome || hasMarker rest)
    else hasMarker rest

/-- `feedback.replace("\n", "<br>")` (main.py line 258): the pattern is the
single newline character, so the replacement is a character-wise scan. -/
def replaceNewlines : List Char → List Char
  | [] => []
  | c :: rest =>
    if c = '\n' then '<' :: 'b' :: 'r' :: '>' :: replaceNewlines rest
    else c :: replaceNewlines rest

/-- Lines 257-258 of main.py: strip brackets, then normalize newlines. -/
def format_feedback (s : String) : String :=
  ⟨replaceNewlines (stripL s.data)⟩

/-- Relates an input text to the result of deleting whole match spans of
`【.*?】` from it, left to right: every deleted span opens with `【`, closes
with the first `】` after it (non-greedy: the interior holds no `】`), and
its interior holds no newline (`.` does not match `\n`); every character
outside the deleted spans is kept unchanged, in order. -/
inductive StripSpec : List Char → List Char → Prop
  | nil : StripSpec [] []
  | keep (c : Char) {l r : List Char} :
      StripSpec l r → StripSpec (c :: l) (c :: r)
  | drop {mid l r : List Char} :
      '】' ∉ mid → '\n' ∉ mid →
      StripSpec l r → StripSpec ('【' :: (mid ++ '】' :: l)) r

lemma splitClose_length {l r : List Char} (h : splitClose l = some r) :
    r.length < l.length := by
  induction l with
  | nil => simp [splitClose] at h
  | cons c rest ih =>
    by_cases hc : c = '】'
    · simp [splitClose, hc] at h
      subst h
      simp
    · by_cases hn : c = '\n'
      · simp [splitClose, hc, hn] at h
      · simp [splitClose, hc, hn] at h
        exact Nat.lt_trans (ih h) (by simp)

lemma splitClose_sublist {l r : List Char} (h : splitClose l = some r) :
    r.Sublist l := by
  induction l with
  | nil => simp [splitClose] at h
  | cons c rest ih =>
    by_cases hc : c = '】'
    · simp [splitClose, hc] at h
      subst h
      exact (List.Sublist.refl _).cons c
    · by_cases hn : c = '\n'
      · simp [splitClose, hc, hn] at h
      · simp [splitClose, hc, hn] at h
        exact (ih h).cons c

/-- A successful close scan decomposes the list as an interior without `】`
or `\n`, the closing `】`, and the returned suffix: exactly the shape of a
non-greedy match of `【.*?】` with `.` excluding newlines. -/
lemma splitClose_decomp :
    ∀ {l r : List Char}, splitClose l = some r →
      ∃ mid, l = mid ++ '】' :: r ∧ '】' ∉ mid ∧ '\n' ∉ mid := by
  intro l
  induction l with
  | nil =>
    intro r h
    simp [splitClose] at h
  | cons c rest ih =>
    intro r h
    by_cases hc : c = '】'
    · subst hc
      simp [splitClose] at h
      subst h
      exact ⟨[], rfl, by simp, by simp⟩
    · by_cases hn : c = '\n'
      · simp [splitClose, hc, hn] at h
      · simp only [splitClose, if_neg hc, if_neg hn] at h
        obtain ⟨mid, hmid, hcl, hnl⟩ := ih h
        refine ⟨c :: mid, by rw [hmid]; rfl, ?_, ?_⟩
        · intro hmem
          rcases List.mem_cons.mp hmem with heq | hmem'
          · exact hc heq.symm
          · exact hcl hmem'
        · intro hmem
          rcases List.mem_cons.mp hmem with heq | hmem'
          · exact hn heq.symm
          · exact hnl hmem'

lemma removeBracketedAux_congr :
    ∀ n m l, l.length ≤ n → l.length ≤ m →
      removeBracketedAux n l = removeBracketedAux m l := by
  intro n
  induction n with
  | zero =>
    intro m l hn _
    have : l = [] := List.length_eq_zero.mp (Nat.le_zero.mp hn)
    subst this
    cases m <;> rfl
  | succ n ih =>
    intro m l hn hm
    match l with
    | [] => cases m <;> rfl
    | c :: rest =>
      match m with
      | 0 => simp at hm
      | m + 1 =>
        have hrn : rest.length ≤ n := by simpa using hn
        have hrm : rest.length ≤ m := by simpa using hm
        by_cases hc : c = '【'
        · cases hsp : splitClose rest with
          | none =>
            simp only [removeBracketedAux, hc, if_true, eq_self_iff_true, hsp]
            exact congrArg _ (ih m rest hrn hrm)
          | some rest' =>
            have hlen := splitClose_length hsp
            simp only [removeBracketedAux, hc, if_true, eq_self_iff_true, hsp]
            exact ih m rest' (le_trans (le_of_lt hlen) hrn)
              (le_trans (le_of_lt hlen) hrm)
        · simp only [removeBracketedAux, if_neg hc]
          exact congrArg _ (ih m rest hrn hrm)

lemma stripL_nil : stripL [] = [] := rfl

lemma stripL_cons_ne {c : Char} {rest : List Char} (h : c ≠ '【') :
    stripL (c :: rest) = c :: stripL rest := by
  simp only [stripL, List.length_cons, removeBracketedAux, if_neg h]

lemma stripL_cons_open_none {rest : List Char} (h : splitClose rest = none) :
    stripL ('【' :: rest) = '【' :: stripL rest := by
  simp [stripL, removeBracketedAux, h]

lemma stripL_cons_open_some {rest rest' : List Char}
    (h : splitClose rest = some rest') :
    stripL ('【' :: rest) = stripL rest' := by
  simp only [stripL, List.length_cons, removeBracketedAux, if_true,
    eq_self_iff_true, h]
  exact removeBracketedAux_congr rest.length rest'.length rest'
    (le_of_lt (splitClose_length h)) le_rfl

/-- If the scan from some `【` finds no newline-free closing `】`, then it
still finds none after stripping: the deleted spans contain no newline, so
every surviving `】` keeps a surviving `\n` in front of it. -/
lemma splitClose_stripL : ∀ l, splitClose l = none → splitClose (stripL l) = none := by
  intro l
  induction l with
  | nil =>
    intro _
    rfl
  | cons c rest ih =>
    intro h
    by_cases hc : c = '】'
    · subst hc
      simp [splitClose] at h
    · by_cases hn : c = '\n'
      · subst hn
        rw [stripL_cons_ne (by decide)]
        simp [splitClose]
      · have hrest : splitClose rest = none := by
          simpa [splitClose, hc, hn] using h
        by_cases hop : c = '【'
        · subst hop
          rw [stripL_cons_open_none hrest]
          simpa [splitClose] using ih hrest
        · rw [stripL_cons_ne hop]
          simpa [splitClose, hc, hn] using ih hrest

lemma stripL_sublist : ∀ n l, List.length l ≤ n → (stripL l).Sublist l := by
  intro n
  induction n with
  | zero =>
    intro l h
    have : l = [] := List.length_eq_zero.mp (Nat.le_zero.mp h)
    subst this
    simp [stripL_nil]
  | succ n ih =>
    intro l h
    match l with
    | [] => simp [stripL_nil]
    | c :: rest =>
      have hr : rest.length ≤ n := by simpa using h
      by_cases hc : c = '【'
      · subst hc
        cases hsp : splitClose rest with
        | none =>
          rw [stripL_cons_open_none hsp]
          exact (ih rest hr).cons₂ _
        | some rest' =>
          rw [stripL_cons_open_some hsp]
          have h1 : rest'.length ≤ n :=
            le_trans (le_of_lt (splitClose_length hsp)) hr
          exact ((ih rest' h1).trans (splitClose_sublist hsp)).cons _
      · rw [stripL_cons_ne hc]
        exact (ih rest hr).cons₂ _

lemma stripL_of_hasMarker_false :
    ∀ n l, List.length l ≤ n → hasMarker l = false → stripL l = l := by
  intro n
  induction n with
  | zero =>
    intro l h _
    have : l = [] := List.length_eq_zero.mp (Nat.le_zero.mp h)
    subst this
    rfl
  | succ n ih =>
    intro l h hm
    match l with
    | [] => rfl
    | c :: rest =>
      have hr : rest.length ≤ n := by simpa using h
      by_cases hc : c = '【'
      · subst hc
        simp only [hasMarker, if_true, eq_self_iff_true,
          Bool.or_eq_false_iff] at hm
        cases hsp : splitClose rest with
        | some r' =>
          rw [hsp] at hm
          simp at hm
        | none =>
          rw [stripL_cons_open_none hsp, ih rest hr hm.2]
      · simp only [hasMarker, if_neg hc] at hm
        rw [stripL_cons_ne hc, ih rest hr hm]

lemma hasMarker_stripL : ∀ n l, List.length l ≤ n → hasMarker (stripL l) = false := by
  intro n
  induction n with
  | zero =>
    intro l h
    have : l = [] := List.length_eq_zero.mp (Nat.le_zero.mp h)
    subst this
    rfl
  | succ n ih =>
    intro l h
    match l with
    | [] => rfl
    | c :: rest =>
      have hr : rest.length ≤ n := by simpa using h
      by_cases hc : c = '【'
      · subst hc
        cases hsp : splitClose rest with
        | none =>
          rw [stripL_cons_open_none hsp]
          simp only [hasMarker, if_true, eq_self_iff_true,
            Bool.or_eq_false_iff]
          refine ⟨?_, ih rest hr⟩
          rw [splitClose_stripL rest hsp]
          rfl
        | some rest' =>
          rw [stripL_cons_open_some hsp]
          exact ih rest' (le_trans (le_of_lt (splitClose_length hsp)) hr)
      · rw [stripL_cons_ne hc]
        simp only [hasMarker, if_neg hc]
        exact ih rest hr

lemma stripL_idem (l : List Char) : stripL (stripL l) = stripL l :=
  stripL_of_hasMarker_false (stripL l).length (stripL l) le_rfl
    (hasMarker_stripL l.length l le_rfl)

/-- The scan deletes exactly whole match spans and keeps everything else:
input and output are related by `StripSpec`. -/
lemma stripSpec_stripL : ∀ n l, List.length l ≤ n → StripSpec l (stripL l) := by
  intro n
  induction n with
  | zero =>
    intro l h
    have : l = [] := List.length_eq_zero.mp (Nat.le_zero.mp h)
    subst this
    exact StripSpec.nil
  | succ n ih =>
    intro l h
    match l with
    | [] => exact StripSpec.nil
    | c :: rest =>
      have hr : rest.length ≤ n := by simpa using h
      by_cases hc : c = '【'
      · subst hc
        cases hsp : splitClose rest with
        | none =>
          rw [stripL_cons_open_none hsp]
          exact StripSpec.keep _ (ih rest hr)
        | some rest' =>
          rw [stripL_cons_open_some hsp]
          obtain ⟨mid, hmid, hcl, hnl⟩ := splitClose_decomp hsp
          have hlen : rest'.length ≤ n :=
            le_trans (le_of_lt (splitClose_length hsp)) hr
          rw [hmid]
          exact StripSpec.drop hcl hnl (ih rest' hlen)
      · rw [stripL_cons_ne hc]
        exact StripSpec.keep _ (ih rest hr)

/-- Boundary behaviour of the embedded `re.sub`: a bracketed span within one
line is deleted, while a span interrupted by a newline is not a match (`.`
does not match `\n`) and the text is left unchanged. -/
lemma remove_bracketed_text_newline_boundary :
    remove_bracketed_text "x【a】y" = "xy"
    ∧ remove_bracketed_text "x【a\nb】y" = "x【a\nb】y" := by
  decide

/-! ## `poll_openai_run` (main.py lines 81-105)

The Python loop runs `while run.status not in ["completed","failed","cancelled"]`,
and at the top of each iteration synthesizes a `failed`/`timeout` run and
breaks as soon as `attempts >= max_attempts`.  Each surviving iteration
sleeps `wait_time`, updates `wait_time := min(wait_time * 1.5, 120)`,
increments `attempts` and retrieves the run again.  `poll_loop` is the same
loop where `budget = max_attempts - attempts` (so `budget = 0` is exactly
the `attempts >= max_attempts` check); `attempt` indexes which retrieval
response the environment serves.  `wait_time` stays a dyadic rational in the
source (30, 45, 67.5, 101.25, 120, ...), so `ℚ` models the float exactly. -/

/-- `["completed", "failed", "cancelled"]` of main.py line 85. -/
def terminalStatuses : List String := ["completed", "failed", "cancelled"]

/-- The synthetic run written at main.py lines 89-94 when the attempt budget
is exhausted. -/
def timeoutRun : RunState :=
  { status := "failed"
    last_error := some (LastError.mkDict (some "timeout")
      (some "OpenAI response took too long.")) }

/-- The poll loop; returns the final run and the trace of external calls. -/
def poll_loop (env : Env) (run : RunState) (wait : ℚ) (attempt : Nat) :
    Nat → RunState × List Effect
  | 0 =>
    if run.status ∈ terminalStatuses then (run, []) else (timeoutRun, [])
  | budget + 1 =>
    if run.status ∈ terminalStatuses then (run, [])
    else
      let next := poll_loop env (env.retrieve (attempt + 1))
        (min (wait * (3 / 2)) 120) (attempt + 1) budget
      (next.1, Effect.sleep wait :: Effect.openai_retrieve :: next.2)

/-- `poll_openai_run(client, thread, run, max_attempts=5)`: the loop started
with `attempts = 0` and `wait_time = 30`. -/
def poll_openai_run (env : Env) (run : RunState) (max_attempts : Nat := 5) :
    RunState × List Effect :=
  poll_loop env run 30 0 max_attempts

/-! ## The webhook helpers (main.py lines 108-159)

Each helper performs one `requests.post`; the transport result is an
`Option Nat` (`none` = the library raised, `some c` = HTTP status `c`). -/

/-- `send_slack_alert` (lines 108-127): returns `True` only on HTTP 200; a
non-200 status is logged and falls through to `return False`; an exception
is caught and also falls through to `return False`.  It never re-raises. -/
def send_slack_alert (resp : Option Nat) : Except String Bool :=
  match resp with
  | some code => if code = 200 then Except.ok true else Except.ok false
  | none => Except.ok false

/-- `send_failsafe_payload` (lines 130-145): any HTTP status is only logged
(there is no status check), but a transport exception is logged and then
re-raised by the bare `raise` on line 145.  The error value carries the text
of the log line under which the exception is re-raised. -/
def send_failsafe_payload (resp : Option Nat) : Except String Unit :=
  match resp with
  | some _ => Except.ok ()
  | none => Except.error "Error sending failed task to GHL."

/-- `send_ghl_feedback` (lines 148-159): any HTTP status is only logged; a
transport exception is logged and re-raised by `raise` on line 159. -/
def send_ghl_feedback (resp : Option Nat) : Except String Unit :=
  match resp with
  | some _ => Except.ok ()
  | none => Except.error "Error sending feedback to GHL."

/-- The `run.last_error` normalization of main.py lines 212-224: a dict is
read with `.get(key, "N/A")`, anything else with `getattr(_, key, "N/A")`
(in particular `None`, for which every `getattr` yields the default). -/
def extract_error : Option LastError → String × String
  | none => ("N/A", "N/A")
  | some (LastError.mkDict code message) => (code.getD "N/A", message.getD "N/A")
  | some (LastError.mkObj code message) => (code.getD "N/A", message.getD "N/A")

/-- Step 3 of the task (main.py lines 243-256): list the thread's messages
and validate the response.  Every failure mode — the client raising, empty
`data`, falsy `content`, falsy `content[0].text` — is caught by the
surrounding `except` and re-raised as the same
`Exception("Error retrieving OpenAI response.")`, so the step is a partial
function returning the assistant text when all checks pass. -/
def getAssistantOutput (env : Env) : Option String :=
  match env.list_result with
  | none => none
  | some resp =>
    match resp.data with
    | [] => none
    | latest :: _ =>
      match latest.content with
      | [] => none
      | c :: _ =>
        match c.text with
        | none => none
        | some t => some t.value

/-- The day → (user_input, ghl_webhook_url) conditional chain of main.py
lines 171-190.  `none` is the `else` arm that raises
`ValueError(f"Invalid day value received: {day}")`. -/
def route (cfg : Config) (day : Int) (field1 field2 : String) :
    Option (String × String) :=
  if day = 1 then
    some ("Användaren lämnar in sin läxa för Dag 1. Användaren har valt marknadsplatsen: \"\"\"" ++ field1 ++ "\"\"\". Användaren har tagit fram snittförsäljningen: \"\"\"" ++ field2 ++ "\"\"\".",
      cfg.ghl_webhook_url_day_1)
  else if day = 2 then
    some ("Användaren lämnar in sin läxa för Dag 2. Användaren har prisbilden: \"\"\"" ++ field1 ++ "\"\"\". Användaren har en marginal på: \"\"\"" ++ field2 ++ "\"\"\".",
      cfg.ghl_webhook_url_day_2)
  else if day = 3 then
    some ("Användaren lämnar in sin läxa för Dag 3. Användaren kommer att sticka ut i sin förstabild genom: \"\"\"" ++ field1 ++ "\"\"\". Användarens viktigaste USP är: \"\"\"" ++ field2 ++ "\"\"\".",
      cfg.ghl_webhook_url_day_3)
  else if day = 4 then
    some ("Användaren lämnar in sin läxa för Dag 4. Användaren kommer att stimulera A9 på så här många sätt: \"\"\"" ++ field1 ++ "\"\"\". Användarens viktigaste målgrupp är: \"\"\"" ++ field2 ++ "\"\"\".",
      cfg.ghl_webhook_url_day_4)
  else if day = 5 then
    some ("Användaren lämnar in sin läxa för Dag 5. Användaren kommer att generera reviews på så här många sätt: \"\"\"" ++ field1 ++ "\"\"\". Användarens viktigaste taktik för att generera reviews är \"\"\"" ++ field2 ++ "\"\"\".",
      cfg.ghl_webhook_url_day_5)
  else none

/-- The Celery task `process_assignment` (main.py lines 161-268), declared
with `bind=True` and no `autoretry_for`, under a Celery app configured with
`task_acks_late=False` and `task_reject_on_worker_lost=False`: the task runs
once and is neither re-queued nor retried, whatever happens.

Program order of the source:
1. the day conditional chain (`route`); its `else` arm raises `ValueError`
   before any external call;
2. the commented-out 1-3 minute start delay (lines 192-196) — absent, so no
   `sleep` precedes thread creation;
3. thread + run creation, re-raised as
   `Exception("Error creating OpenAI thread.")` on failure;
4. `poll_openai_run` with the default `max_attempts=5`;
5. if the final status is exactly `"failed"`: Slack alert (result ignored),
   failsafe payload (re-raises on transport error), then either
   `update_state(FAILURE)` + `return` when the code is `server_error` or
   `timeout`, or `raise Exception("OpenAI task failed.")`;
6. otherwise (including a `"cancelled"` run): retrieve + validate the
   response, strip brackets, replace newlines, and post to the day's GHL
   webhook, re-raising delivery failures as
   `Exception("Error sending feedback to GHL.")`. -/
def process_assignment (cfg : Config) (env : Env) (s : Submission) :
    Outcome × List Effect :=
  match route cfg s.day s.field1 s.field2 with
  | none => (Outcome.raised ("Invalid day value received: " ++ toString s.day), [])
  | some (_, url) =>
    if env.create_ok then
      if (poll_openai_run env env.initial_run).1.status = "failed" then
        match send_failsafe_payload env.failsafe_resp with
        | Except.error m =>
          (Outcome.raised m,
            Effect.openai_create :: (poll_openai_run env env.initial_run).2
              ++ [Effect.post_slack, Effect.post_failsafe])
        | Except.ok _ =>
          if (extract_error (poll_openai_run env env.initial_run).1.last_error).1 = "server_error"
              ∨ (extract_error (poll_openai_run env env.initial_run).1.last_error).1 = "timeout" then
            (Outcome.failureState
                (extract_error (poll_openai_run env env.initial_run).1.last_error).1
                (extract_error (poll_openai_run env env.initial_run).1.last_error).2,
              Effect.openai_create :: (poll_openai_run env env.initial_run).2
                ++ [Effect.post_slack, Effect.post_failsafe])
          else
            (Outcome.raised "OpenAI task failed.",
              Effect.openai_create :: (poll_openai_run env env.initial_run).2
                ++ [Effect.post_slack, Effect.post_failsafe])
      else
        match getAssistantOutput env with
        | none =>
          (Outcome.raised "Error retrieving OpenAI response.",
            Effect.openai_create :: (poll_openai_run env env.initial_run).2
              ++ [Effect.openai_list])
        | some txt =>
          match send_ghl_feedback env.delivery_resp with
          | Except.ok _ =>
            (Outcome.success,
              Effect.openai_create :: (poll_openai_run env env.initial_run).2
                ++ [Effect.openai_list, Effect.post_ghl url (format_feedback txt)])
          | Except.error _ =>
            (Outcome.raised "Error sending feedback to GHL.",
              Effect.openai_create :: (poll_openai_run env env.initial_run).2
                ++ [Effect.openai_list, Effect.post_ghl url (format_feedback txt)])
    else (Outcome.raised "Error creating OpenAI thread.", [Effect.openai_create])

/-- The HTTP intake endpoint `receive_assignment` (main.py lines 271-285):
it logs, enqueues `process_assignment.delay(...)` with the five fields of
the request unchanged, and returns the fixed acknowledgment body.  There is
no validation of `day` here. -/
def receive_assignment (data : AssignmentRequest) : List Submission × String :=
  ([{ contact_id := data.contact_id
      contact_email := data.contact_email
      day := data.day
      field1 := data.field1
      field2 := data.field2 }],
    "Assignment received! Processing in Celery queue.")

/-! ## Trace observers -/

/-- The sequence of `time.sleep` intervals in a trace, in order. -/
def sleepTimes : List Effect → List ℚ
  | [] => []
  | Effect.sleep q :: rest => q :: sleepTimes rest
  | _ :: rest => sleepTimes rest

/-- Boolean: the list of intervals is non-decreasing. -/
def nondecr : List ℚ → Bool
  | [] => true
  | [_] => true
  | a :: b :: rest => decide (a ≤ b) && nondecr (b :: rest)

def isRetrieve : Effect → Bool
  | Effect.openai_retrieve => true
  | _ => false

def isSlack : Effect → Bool
  | Effect.post_slack => true
  | _ => false

def isFailsafe : Effect → Bool
  | Effect.post_failsafe => true
  | _ => false

def isList : Effect → Bool
  | Effect.openai_list => true
  | _ => false

def isGhl : Effect → Bool
  | Effect.post_ghl _ _ => true
  | _ => false

/-! ## Poll-loop lemmas -/

lemma nondecr_cons {a : ℚ} {l : List ℚ} (hall : ∀ x ∈ l, a ≤ x)
    (hl : nondecr l = true) : nondecr (a :: l) = true := by
  cases l with
  | nil => rfl
  | cons b rest =>
    have hab : a ≤ b := hall b (by simp)
    simp [nondecr, hab, hl]

/-- Invariant of one run of `poll_loop`: starting from a wait interval in
`[0, 120]`, the recorded sleep intervals are non-decreasing, each lies
between the starting interval and the 120-second cap, and the number of
`runs.retrieve` calls is at most the remaining attempt budget. -/
lemma poll_loop_spec :
    ∀ budget env run wait attempt, 0 ≤ wait → wait ≤ 120 →
      nondecr (sleepTimes (poll_loop env run wait attempt budget).2) = true
      ∧ (∀ q ∈ sleepTimes (poll_loop env run wait attempt budget).2,
          wait ≤ q ∧ q ≤ 120)
      ∧ (poll_loop env run wait attempt budget).2.countP isRetrieve ≤ budget := by
  intro budget
  induction budget with
  | zero =>
    intro env run wait attempt h0 h120
    by_cases ht : run.status ∈ terminalStatuses <;>
      simp [poll_loop, ht, sleepTimes, nondecr]
  | succ b ih =>
    intro env run wait attempt h0 h120
    by_cases ht : run.status ∈ terminalStatuses
    · simp [poll_loop, ht, sleepTimes, nondecr]
    · have hw0' : (0 : ℚ) ≤ min (wait * (3 / 2)) 120 :=
        le_min (by nlinarith) (by norm_num)
      have hw120' : min (wait * (3 / 2)) 120 ≤ 120 := min_le_right _ _
      have hwle : wait ≤ min (wait * (3 / 2)) 120 :=
        le_min (by nlinarith) h120
      obtain ⟨ihn, ihm, ihc⟩ :=
        ih env (env.retrieve (attempt + 1)) (min (wait * (3 / 2)) 120)
          (attempt + 1) hw0' hw120'
      refine ⟨?_, ?_, ?_⟩
      · simp only [poll_loop, if_neg ht, sleepTimes]
        exact nondecr_cons
          (fun x hx => le_trans hwle (ihm x hx).1) ihn
      · simp only [poll_loop, if_neg ht, sleepTimes]
        intro q hq
        rcases List.mem_cons.mp hq with hq | hq
        · subst hq
          exact ⟨le_rfl, h120⟩
        · exact ⟨le_trans hwle (ihm q hq).1, (ihm q hq).2⟩
      · simp only [poll_loop, if_neg ht, List.countP_cons, isRetrieve]
        simpa using ihc

/-- Every effect of the poll loop is a sleep or a `runs.retrieve`; in
particular the loop posts to no webhook and never lists messages. -/
lemma poll_loop_effects :
    ∀ budget env run wait attempt e,
      e ∈ (poll_loop env run wait attempt budget).2 →
      (∃ q, e = Effect.sleep q) ∨ e = Effect.openai_retrieve := by
  intro budget
  induction budget with
  | zero =>
    intro env run wait attempt e he
    by_cases ht : run.status ∈ terminalStatuses <;>
      simp [poll_loop, ht] at he
  | succ b ih =>
    intro env run wait attempt e he
    by_cases ht : run.status ∈ terminalStatuses
    · simp [poll_loop, ht] at he
    · simp only [poll_loop, if_neg ht, List.mem_cons] at he
      rcases he with he | he | he
      · exact Or.inl ⟨wait, he⟩
      · exact Or.inr he
      · exact ih env _ _ _ e he

lemma poll_countP_slack (env : Env) (run : RunState) (ma : Nat) :
    (poll_openai_run env run ma).2.countP isSlack = 0 := by
  rw [List.countP_eq_zero]
  intro e he
  rcases poll_loop_effects ma env run 30 0 e he with ⟨q, rfl⟩ | rfl <;>
    simp [isSlack]

lemma poll_countP_failsafe (env : Env) (run : RunState) (ma : Nat) :
    (poll_openai_run env run ma).2.countP isFailsafe = 0 := by
  rw [List.countP_eq_zero]
  intro e he
  rcases poll_loop_effects ma env run 30 0 e he with ⟨q, rfl⟩ | rfl <;>
    simp [isFailsafe]

lemma poll_countP_list (env : Env) (run : RunState) (ma : Nat) :
    (poll_openai_run env run ma).2.countP isList = 0 := by
  rw [List.countP_eq_zero]
  intro e he
  rcases poll_loop_effects ma env run 30 0 e he with ⟨q, rfl⟩ | rfl <;>
    simp [isList]

lemma poll_countP_ghl (env : Env) (run : RunState) (ma : Nat) :
    (poll_openai_run env run ma).2.countP isGhl = 0 := by
  rw [List.countP_eq_zero]
  intro e he
  rcases poll_loop_effects ma env run 30 0 e he with ⟨q, rfl⟩ | rfl <;>
    simp [isGhl]

lemma slack_not_in_poll (env : Env) (run : RunState) (ma : Nat) :
    Effect.post_slack ∉ (poll_openai_run env run ma).2 := by
  intro h
  rcases poll_loop_effects ma env run 30 0 _ h with ⟨q, hq⟩ | hq <;> simp at hq

lemma failsafe_not_in_poll (env : Env) (run : RunState) (ma : Nat) :
    Effect.post_failsafe ∉ (poll_openai_run env run ma).2 := by
  intro h
  rcases poll_loop_effects ma env run 30 0 _ h with ⟨q, hq⟩ | hq <;> simp at hq

/-! ## Router lemmas -/

/-- For a day in `{1..5}` the conditional chain of main.py lines 171-186
selects some prompt and webhook. -/
lemma route_some (cfg : Config) (d : Int) (f1 f2 : String)
    (h1 : 1 ≤ d) (h2 : d ≤ 5) :
    ∃ t u, route cfg d f1 f2 = some (t, u) := by
  have hd : d = 1 ∨ d = 2 ∨ d = 3 ∨ d = 4 ∨ d = 5 := by omega
  rcases hd with rfl | rfl | rfl | rfl | rfl <;> exact ⟨_, _, rfl⟩

/-- For a day outside `{1..5}` the chain falls to the `else` arm of
main.py line 187. -/
lemma route_none (cfg : Config) (d : Int) (f1 f2 : String)
    (h : d < 1 ∨ 5 < d) :
    route cfg d f1 f2 = none := by
  have n1 : d ≠ 1 := by omega
  have n2 : d ≠ 2 := by omega
  have n3 : d ≠ 3 := by omega
  have n4 : d ≠ 4 := by omega
  have n5 : d ≠ 5 := by omega
  simp [route, n1, n2, n3, n4, n5]

/-! ## Concrete fixtures used by witnesses and counterexamples -/

/-- A configuration with five pairwise distinct destination URLs. -/
def cfg0 : Config :=
  { ghl_webhook_url_day_1 := "url-day-1"
    ghl_webhook_url_day_2 := "url-day-2"
    ghl_webhook_url_day_3 := "url-day-3"
    ghl_webhook_url_day_4 := "url-day-4"
    ghl_webhook_url_day_5 := "url-day-5" }

/-- A day-1 submission (the Scenario A shape of the specification). -/
def s1 : Submission :=
  { contact_id := "c1"
    contact_email := "user@example.com"
    day := 1
    field1 := "Amazon.se"
    field2 := "1200 SEK" }

/-- A submission with `day = 7`, outside `{1..5}`. -/
def s7 : Submission :=
  { contact_id := "c7"
    contact_email := "user@example.com"
    day := 7
    field1 := "f1"
    field2 := "f2" }

/-- An environment in which every external call succeeds: the run completes
immediately, the message list holds one message with text `"ok"`, and every
webhook returns HTTP 200. -/
def envOk : Env :=
  { create_ok := true
    initial_run := { status := "completed", last_error := none }
    retrieve := fun _ => { status := "completed", last_error := none }
    slack_resp := some 200
    failsafe_resp := some 200
    delivery_resp := some 200
    list_result := some { data := [{ content := [{ text := some { value := "ok" } }] }] } }

/-- As `envOk`, but `messages.list` raises (a network error while retrieving
the completed run's result). -/
def envNoMessages : Env := { envOk with list_result := none }

/-- As `envOk`, but the run comes back `"cancelled"`. -/
def envCancelled : Env :=
  { envOk with
      initial_run := { status := "cancelled", last_error := none }
      retrieve := fun _ => { status := "cancelled", last_error := none } }

/-- As `envOk`, but the run comes back `"failed"` with no `last_error`. -/
def envFailed : Env :=
  { envOk with
      initial_run := { status := "failed", last_error := none }
      retrieve := fun _ => { status := "failed", last_error := none } }

/-- As `envOk`, but the destination webhook raises a connection error. -/
def envDeliveryFail : Env := { envOk with delivery_resp := none }

/-! ## Claim theorems -/

/-- Claim C5: for every submission whose `day` lies outside `{1..5}`,
`process_assignment` raises `ValueError(f"Invalid day value received: {day}")`
with an empty effect trace — no completion-service call, no delivery, and no
escalation call are made — and, the task being declared without any retry,
the failure is final. -/
theorem c5_invalid_day_fails_before_any_call (cfg : Config) (env : Env)
    (s : Submission) (h : s.day < 1 ∨ 5 < s.day) :
    process_assignment cfg env s =
      (Outcome.raised ("Invalid day value received: " ++ toString s.day), []) := by
  unfold process_assignment
  rw [route_none cfg s.day s.field1 s.field2 h]

/-- Witness for C5 at the concrete `day = 7` submission. -/
theorem c5_witness :
    (s7.day < 1 ∨ 5 < s7.day)
    ∧ process_assignment cfg0 envOk s7 =
        (Outcome.raised ("Invalid day value received: " ++ toString s7.day), []) :=
  ⟨by decide, c5_invalid_day_fails_before_any_call cfg0 envOk s7 (by decide)⟩

/-- Claim C6: for every environment, initial run and attempt budget, the
poll loop's recorded sleep intervals are non-decreasing and each bounded by
the 120-second cap, and the number of `runs.retrieve` calls never exceeds
`max_attempts` — once the budget is reached the loop synthesizes the timeout
failure without contacting the service again. -/
theorem c6_backoff_monotone_capped_bounded (env : Env) (run : RunState) (ma : Nat) :
    nondecr (sleepTimes (poll_openai_run env run ma).2) = true
    ∧ ((sleepTimes (poll_openai_run env run ma).2).all fun q => decide (q ≤ 120)) = true
    ∧ (poll_openai_run env run ma).2.countP isRetrieve ≤ ma := by
  obtain ⟨hn, hm, hc⟩ := poll_loop_spec ma env run 30 0 (by norm_num) (by norm_num)
  refine ⟨hn, ?_, hc⟩
  rw [List.all_eq_true]
  intro q hq
  exact decide_eq_true (hm q hq).2

/-- Claim C7: bracket-stripping is idempotent; the output is obtained from
the input exactly by deleting whole match spans of `【.*?】` — each a `【`,
a newline-free interior without `】`, and the closing `】` — while keeping
every other character unchanged, in order (`StripSpec`, with the output a
subsequence of the input); no match of the pattern survives in the output;
and an input without any match is returned unchanged. -/
theorem c7_strip_idempotent_and_complete (s : String) :
    remove_bracketed_text (remove_bracketed_text s) = remove_bracketed_text s
    ∧ StripSpec s.data (remove_bracketed_text s).data
    ∧ (remove_bracketed_text s).data.Sublist s.data
    ∧ hasMarker (remove_bracketed_text s).data = false
    ∧ (hasMarker s.data = false → remove_bracketed_text s = s) := by
  obtain ⟨l⟩ := s
  refine ⟨?_, ?_, ?_, ?_, ?_⟩
  · show (⟨stripL (stripL l)⟩ : String) = ⟨stripL l⟩
    rw [stripL_idem]
  · exact stripSpec_stripL l.length l le_rfl
  · exact stripL_sublist l.length l le_rfl
  · exact hasMarker_stripL l.length l le_rfl
  · intro h
    show (⟨stripL l⟩ : String) = ⟨l⟩
    rw [stripL_of_hasMarker_false l.length l le_rfl h]

/-- Witness for C7: the inner hypothesis (a marker-free input) discharged at
a concrete string. -/
theorem c7_witness : remove_bracketed_text "hej" = "hej" :=
  (c7_strip_idempotent_and_complete "hej").2.2.2.2 (by decide)

/-- Claim C8 (code bug in the source): the 1-3 minute jittered start delay
promised by the task's own docstring ("1️⃣ Waits 1-3 min before processing.")
is commented out at main.py lines 192-196, so for every valid submission the
very first external effect is the OpenAI thread/run creation — no sleep
precedes the first submission to the completion service. -/
theorem c8_no_start_delay (cfg : Config) (env : Env) (s : Submission)
    (h1 : 1 ≤ s.day) (h2 : s.day ≤ 5) :
    (process_assignment cfg env s).2.head? = some Effect.openai_create := by
  obtain ⟨t, u, hr⟩ := route_some cfg s.day s.field1 s.field2 h1 h2
  unfold process_assignment
  rw [hr]
  repeat' split
  all_goals first | rfl | simp_all

/-- Witness for C8 at the concrete day-1 submission. -/
theorem c8_witness :
    (process_assignment cfg0 envOk s1).2.head? = some Effect.openai_create :=
  c8_no_start_delay cfg0 envOk s1 (by decide) (by decide)

/-- The five destination URLs of the configuration are pairwise distinct. -/
def distinctUrls (cfg : Config) : Prop :=
  cfg.ghl_webhook_url_day_1 ≠ cfg.ghl_webhook_url_day_2
  ∧ cfg.ghl_webhook_url_day_1 ≠ cfg.ghl_webhook_url_day_3
  ∧ cfg.ghl_webhook_url_day_1 ≠ cfg.ghl_webhook_url_day_4
  ∧ cfg.ghl_webhook_url_day_1 ≠ cfg.ghl_webhook_url_day_5
  ∧ cfg.ghl_webhook_url_day_2 ≠ cfg.ghl_webhook_url_day_3
  ∧ cfg.ghl_webhook_url_day_2 ≠ cfg.ghl_webhook_url_day_4
  ∧ cfg.ghl_webhook_url_day_2 ≠ cfg.ghl_webhook_url_day_5
  ∧ cfg.ghl_webhook_url_day_3 ≠ cfg.ghl_webhook_url_day_4
  ∧ cfg.ghl_webhook_url_day_3 ≠ cfg.ghl_webhook_url_day_5
  ∧ cfg.ghl_webhook_url_day_4 ≠ cfg.ghl_webhook_url_day_5

/-- Claim C9: under a configuration whose five destination URLs are pairwise
distinct, the category router sends two different days of `{1..5}` to two
different destination URLs, and the prompt it builds for a day embeds the
submission's `field1` and `field2` verbatim (the prompt is a concatenation
`p ++ field1 ++ m ++ field2 ++ suf` of fixed template pieces around the two
field values). -/
theorem c9_router_distinct_and_verbatim (cfg : Config) (d₁ d₂ : Int)
    (f1 f2 g1 g2 : String) (hdist : distinctUrls cfg)
    (h11 : 1 ≤ d₁) (h15 : d₁ ≤ 5) (h21 : 1 ≤ d₂) (h25 : d₂ ≤ 5)
    (hne : d₁ ≠ d₂) :
    (route cfg d₁ f1 f2).map Prod.snd ≠ (route cfg d₂ g1 g2).map Prod.snd
    ∧ ∃ p m suf t u, route cfg d₁ f1 f2 = some (t, u)
        ∧ t = p ++ f1 ++ m ++ f2 ++ suf := by
  obtain ⟨h12, h13, h14, h15u, h23, h24, h25u, h34, h35, h45⟩ := hdist
  have h21u : cfg.ghl_webhook_url_day_2 ≠ cfg.ghl_webhook_url_day_1 := h12.symm
  have h31u : cfg.ghl_webhook_url_day_3 ≠ cfg.ghl_webhook_url_day_1 := h13.symm
  have h41u : cfg.ghl_webhook_url_day_4 ≠ cfg.ghl_webhook_url_day_1 := h14.symm
  have h51u : cfg.ghl_webhook_url_day_5 ≠ cfg.ghl_webhook_url_day_1 := h15u.symm
  have h32u : cfg.ghl_webhook_url_day_3 ≠ cfg.ghl_webhook_url_day_2 := h23.symm
  have h42u : cfg.ghl_webhook_url_day_4 ≠ cfg.ghl_webhook_url_day_2 := h24.symm
  have h52u : cfg.ghl_webhook_url_day_5 ≠ cfg.ghl_webhook_url_day_2 := h25u.symm
  have h43u : cfg.ghl_webhook_url_day_4 ≠ cfg.ghl_webhook_url_day_3 := h34.symm
  have h53u : cfg.ghl_webhook_url_day_5 ≠ cfg.ghl_webhook_url_day_3 := h35.symm
  have h54u : cfg.ghl_webhook_url_day_5 ≠ cfg.ghl_webhook_url_day_4 := h45.symm
  have hd1 : d₁ = 1 ∨ d₁ = 2 ∨ d₁ = 3 ∨ d₁ = 4 ∨ d₁ = 5 := by omega
  have hd2 : d₂ = 1 ∨ d₂ = 2 ∨ d₂ = 3 ∨ d₂ = 4 ∨ d₂ = 5 := by omega
  rcases hd1 with rfl | rfl | rfl | rfl | rfl <;>
    rcases hd2 with rfl | rfl | rfl | rfl | rfl <;>
      first
        | exact absurd rfl hne
        | exact ⟨by simp [route]; assumption, _, _, _, _, _, rfl, rfl⟩

/-- Witness for C9 at the concrete configuration `cfg0` and days 1 and 2. -/
theorem c9_witness :
    ((route cfg0 1 "a" "b").map Prod.snd ≠ (route cfg0 2 "x" "y").map Prod.snd)
    ∧ ∃ p m suf t u, route cfg0 1 "a" "b" = some (t, u)
        ∧ t = p ++ "a" ++ m ++ "b" ++ suf :=
  c9_router_distinct_and_verbatim cfg0 1 2 "a" "b" "x" "y"
    (by unfold distinctUrls; decide)
    (by decide) (by decide) (by decide) (by decide) (by decide)

/-- Claim C10: the intake endpoint performs no range validation: for every
well-typed request — any `day : Int` included — it enqueues the five fields
unchanged and answers the fixed acknowledgment body
`{"message": "Assignment received! Processing in Celery queue."}`; a
malformed `day` only fails later, inside the worker, where the task raises
before any external call. -/
theorem c10_intake_always_acknowledges (data : AssignmentRequest)
    (cfg : Config) (env : Env) :
    receive_assignment data =
      ([{ contact_id := data.contact_id
          contact_email := data.contact_email
          day := data.day
          field1 := data.field1
          field2 := data.field2 }],
        "Assignment received! Processing in Celery queue.")
    ∧ ((data.day < 1 ∨ 5 < data.day) →
        process_assignment cfg env
          { contact_id := data.contact_id
            contact_email := data.contact_email
            day := data.day
            field1 := data.field1
            field2 := data.field2 } =
          (Outcome.raised ("Invalid day value received: " ++ toString data.day), [])) := by
  refine ⟨rfl, fun h => ?_⟩
  unfold process_assignment
  rw [route_none _ _ _ _ h]

/-- Witness for C10 at a concrete request with `day = 9`. -/
theorem c10_witness :
    receive_assignment
        { contact_id := "c9", contact_email := "e@x.se", day := 9,
          field1 := "a", field2 := "b" } =
      ([{ contact_id := "c9", contact_email := "e@x.se", day := 9,
          field1 := "a", field2 := "b" }],
        "Assignment received! Processing in Celery queue.")
    ∧ process_assignment cfg0 envOk
        { contact_id := "c9", contact_email := "e@x.se", day := 9,
          field1 := "a", field2 := "b" } =
        (Outcome.raised ("Invalid day value received: " ++ toString (9 : Int)), []) :=
  ⟨(c10_intake_always_acknowledges
      { contact_id := "c9", contact_email := "e@x.se", day := 9,
        field1 := "a", field2 := "b" } cfg0 envOk).1,
    (c10_intake_always_acknowledges
      { contact_id := "c9", contact_email := "e@x.se", day := 9,
        field1 := "a", field2 := "b" } cfg0 envOk).2 (by decide)⟩

/-- Claim C1 (amended): mutual exclusion holds — a task run that returns
successfully (i.e. delivered the feedback) performed no escalation call —
but the original "never neither" half of the claim is false: several
reachable failure paths (thread creation, result retrieval, delivery) raise
an exception with neither a successful delivery nor any escalation call
(see `c1_counterexample`). -/
theorem c1_success_excludes_escalation (cfg : Config) (env : Env)
    (s : Submission) (h : (process_assignment cfg env s).1 = Outcome.success) :
    (process_assignment cfg env s).2.countP isSlack = 0
    ∧ (process_assignment cfg env s).2.countP isFailsafe = 0 := by
  unfold process_assignment at h ⊢
  rcases hr : route cfg s.day s.field1 s.field2 with _ | ⟨t, u⟩
  · rw [hr] at h
    simp at h
  · rw [hr] at h
    dsimp only at h ⊢
    by_cases hco : env.create_ok = true
    · rw [if_pos hco] at h ⊢
      by_cases hst : (poll_openai_run env env.initial_run).1.status = "failed"
      · rw [if_pos hst] at h ⊢
        exfalso
        cases hfs : send_failsafe_payload env.failsafe_resp with
        | error m => rw [hfs] at h; simp at h
        | ok v =>
          rw [hfs] at h
          by_cases hec :
              (extract_error (poll_openai_run env env.initial_run).1.last_error).1
                = "server_error"
              ∨ (extract_error (poll_openai_run env env.initial_run).1.last_error).1
                = "timeout"
          · rw [if_pos hec] at h; simp at h
          · rw [if_neg hec] at h; simp at h
      · rw [if_neg hst] at h ⊢
        cases hms : getAssistantOutput env with
        | none =>
          rw [hms] at h
          simp at h
        | some txt =>
          rw [hms] at h
          cases hgl : send_ghl_feedback env.delivery_resp with
          | error m =>
            rw [hgl] at h
            simp at h
          | ok v =>
            constructor <;>
              simp [List.countP_cons, List.countP_append, isSlack, isFailsafe,
                poll_countP_slack, poll_countP_failsafe]
    · rw [if_neg hco] at h; simp at h

/-- Witness for C1 on the all-success environment. -/
theorem c1_witness :
    (process_assignment cfg0 envOk s1).1 = Outcome.success
    ∧ (process_assignment cfg0 envOk s1).2.countP isSlack = 0
    ∧ (process_assignment cfg0 envOk s1).2.countP isFailsafe = 0 :=
  ⟨by decide, c1_success_excludes_escalation cfg0 envOk s1 (by decide)⟩

/-- Counterexample to C1 as stated: when `messages.list` fails after a
completed run, the task raises `Exception("Error retrieving OpenAI
response.")` with a trace containing neither a delivery POST nor either
escalation channel — the Job ends with *neither* of
{successful delivery, escalation}. -/
theorem c1_counterexample :
    process_assignment cfg0 envNoMessages s1 =
      (Outcome.raised "Error retrieving OpenAI response.",
        [Effect.openai_create, Effect.openai_list])
    ∧ (process_assignment cfg0 envNoMessages s1).2.countP isSlack = 0
    ∧ (process_assignment cfg0 envNoMessages s1).2.countP isFailsafe = 0
    ∧ (process_assignment cfg0 envNoMessages s1).2.countP isGhl = 0 := by
  decide

/-- Claim C2 (amended): a polled run that ends with status exactly
`"failed"` — which includes the synthetic timeout, synthesized as
`status = "failed"` — takes the terminal-failure path: both escalation
channels are invoked and the feedback is never fetched nor delivered.  A
run ending `"cancelled"` does *not* take this path: the `== "failed"` check
of main.py line 211 lets it fall through to retrieval and delivery
(see `c2_counterexample`). -/
theorem c2_failed_status_escalates (cfg : Config) (env : Env) (s : Submission)
    (h1 : 1 ≤ s.day) (h2 : s.day ≤ 5) (h3 : env.create_ok = true)
    (h4 : (poll_openai_run env env.initial_run).1.status = "failed") :
    (process_assignment cfg env s).2.countP isSlack = 1
    ∧ (process_assignment cfg env s).2.countP isFailsafe = 1
    ∧ (process_assignment cfg env s).2.countP isList = 0
    ∧ (process_assignment cfg env s).2.countP isGhl = 0 := by
  obtain ⟨t, u, hr⟩ := route_some cfg s.day s.field1 s.field2 h1 h2
  have heffs : (process_assignment cfg env s).2 =
      Effect.openai_create :: (poll_openai_run env env.initial_run).2
        ++ [Effect.post_slack, Effect.post_failsafe] := by
    unfold process_assignment
    rw [hr]
    dsimp only
    rw [if_pos h3, if_pos h4]
    cases send_failsafe_payload env.failsafe_resp with
    | error m => rfl
    | ok v =>
      repeat' split
      all_goals rfl
  rw [heffs]
  refine ⟨?_, ?_, ?_, ?_⟩ <;>
    simp [List.countP_cons, List.countP_append, isSlack, isFailsafe, isList,
      isGhl, poll_countP_slack, poll_countP_failsafe, poll_countP_list,
      poll_countP_ghl]

/-- Witness for C2 on an environment whose run is reported `"failed"`. -/
theorem c2_witness :
    (poll_openai_run envFailed envFailed.initial_run).1.status = "failed"
    ∧ (process_assignment cfg0 envFailed s1).2.countP isSlack = 1
    ∧ (process_assignment cfg0 envFailed s1).2.countP isFailsafe = 1
    ∧ (process_assignment cfg0 envFailed s1).2.countP isList = 0
    ∧ (process_assignment cfg0 envFailed s1).2.countP isGhl = 0 :=
  ⟨by decide, c2_failed_status_escalates cfg0 envFailed s1 (by decide)
    (by decide) (by decide) (by decide)⟩

/-- Counterexample to C2 as stated: a run that ends `"cancelled"` is treated
as a success — the poll loop stops on `"cancelled"`, the `== "failed"`
check does not fire, the feedback is fetched, transformed and delivered,
and no escalation channel is invoked. -/
theorem c2_counterexample :
    (poll_openai_run envCancelled envCancelled.initial_run).1.status = "cancelled"
    ∧ process_assignment cfg0 envCancelled s1 =
        (Outcome.success,
          [Effect.openai_create, Effect.openai_list,
            Effect.post_ghl "url-day-1" "ok"]) := by
  decide

/-- Claim C3 (amended): the Slack alert catches its own errors and never
re-raises, and whenever the alert channel is invoked the failsafe channel is
also invoked (the alert cannot prevent it, since it never throws); but the
failsafe sender does *not* catch its error — `send_failsafe_payload`
re-raises a transport failure (the bare `raise` at main.py line 145), so
escalation as a whole can throw. -/
theorem c3_escalation_behavior :
    (∀ resp, ∃ b, send_slack_alert resp = Except.ok b)
    ∧ (∀ resp, resp ≠ none → send_failsafe_payload resp = Except.ok ())
    ∧ send_failsafe_payload none
        = Except.error "Error sending failed task to GHL."
    ∧ (∀ cfg env s, Effect.post_slack ∈ (process_assignment cfg env s).2 →
        Effect.post_failsafe ∈ (process_assignment cfg env s).2) := by
  refine ⟨?_, ?_, rfl, ?_⟩
  · intro resp
    cases resp with
    | none => exact ⟨false, rfl⟩
    | some code =>
      by_cases hc : code = 200
      · exact ⟨true, by simp [send_slack_alert, hc]⟩
      · exact ⟨false, by simp [send_slack_alert, hc]⟩
  · intro resp hresp
    cases resp with
    | none => exact absurd rfl hresp
    | some code => rfl
  · intro cfg env s hmem
    unfold process_assignment at hmem ⊢
    rcases hr : route cfg s.day s.field1 s.field2 with _ | ⟨t, u⟩
    · rw [hr] at hmem
      simp at hmem
    · rw [hr] at hmem
      dsimp only at hmem ⊢
      by_cases hco : env.create_ok = true
      · rw [if_pos hco] at hmem ⊢
        by_cases hst : (poll_openai_run env env.initial_run).1.status = "failed"
        · rw [if_pos hst] at hmem ⊢
          cases hfs : send_failsafe_payload env.failsafe_resp with
          | error m => simp
          | ok v =>
            repeat' split
            all_goals simp
        · rw [if_neg hst] at hmem ⊢
          exfalso
          cases hms : getAssistantOutput env with
          | none =>
            rw [hms] at hmem
            simp at hmem
            exact slack_not_in_poll env env.initial_run 5 hmem
          | some txt =>
            rw [hms] at hmem
            cases hgl : send_ghl_feedback env.delivery_resp with
            | error m =>
              rw [hgl] at hmem
              simp at hmem
              exact slack_not_in_poll env env.initial_run 5 hmem
            | ok v =>
              rw [hgl] at hmem
              simp at hmem
              exact slack_not_in_poll env env.initial_run 5 hmem
      · rw [if_neg hco] at hmem
        simp at hmem

/-- Witness for C3: the hypotheses of the amended claim discharged at
concrete transport results. -/
theorem c3_witness :
    (∃ b, send_slack_alert none = Except.ok b)
    ∧ send_failsafe_payload (some 500) = Except.ok ()
    ∧ (Effect.post_slack ∈ (process_assignment cfg0 envFailed s1).2 →
        Effect.post_failsafe ∈ (process_assignment cfg0 envFailed s1).2) :=
  ⟨c3_escalation_behavior.1 none,
    c3_escalation_behavior.2.1 (some 500) (by decide),
    c3_escalation_behavior.2.2.2 cfg0 envFailed s1⟩

/-- Counterexample to C3 as stated: a transport error in the failsafe sender
is re-raised instead of being swallowed — the escalation path can throw. -/
theorem c3_counterexample :
    send_failsafe_payload none = Except.error "Error sending failed task to GHL." :=
  rfl

/-- Claim C4 (amended): when delivery to the destination webhook fails, the
task raises `Exception("Error sending feedback to GHL.")` after exactly one
delivery attempt; there is no task-level retry (the task is declared with no
`autoretry_for` and the app sets `task_acks_late=False` and
`task_reject_on_worker_lost=False`, so the failed task is not re-queued) and
no escalation channel is invoked. -/
theorem c4_delivery_failure_not_retried (cfg : Config) (env : Env)
    (s : Submission) (txt : String)
    (h1 : 1 ≤ s.day) (h2 : s.day ≤ 5) (h3 : env.create_ok = true)
    (h4 : (poll_openai_run env env.initial_run).1.status ≠ "failed")
    (h5 : getAssistantOutput env = some txt)
    (h6 : env.delivery_resp = none) :
    (process_assignment cfg env s).1 = Outcome.raised "Error sending feedback to GHL."
    ∧ (process_assignment cfg env s).2.countP isSlack = 0
    ∧ (process_assignment cfg env s).2.countP isFailsafe = 0
    ∧ (process_assignment cfg env s).2.countP isGhl = 1 := by
  obtain ⟨t, u, hr⟩ := route_some cfg s.day s.field1 s.field2 h1 h2
  unfold process_assignment
  rw [hr]
  dsimp only
  rw [if_pos h3, if_neg h4, h5, h6]
  refine ⟨rfl, ?_, ?_, ?_⟩ <;>
    simp [List.countP_cons, List.countP_append, isSlack, isFailsafe, isGhl,
      poll_countP_slack, poll_countP_failsafe, poll_countP_ghl,
      send_ghl_feedback]

/-- Witness for C4 at the concrete delivery-failure environment. -/
theorem c4_witness :
    (process_assignment cfg0 envDeliveryFail s1).1
        = Outcome.raised "Error sending feedback to GHL."
    ∧ (process_assignment cfg0 envDeliveryFail s1).2.countP isSlack = 0
    ∧ (process_assignment cfg0 envDeliveryFail s1).2.countP isFailsafe = 0
    ∧ (process_assignment cfg0 envDeliveryFail s1).2.countP isGhl = 1 :=
  c4_delivery_failure_not_retried cfg0 envDeliveryFail s1 "ok" (by decide)
    (by decide) (by decide) (by decide) (by decide) (by decide)

/-- Counterexample to C4 as stated: a delivery connection error produces a
single delivery attempt and an immediately escaping exception — no re-queue
with cool-down, no further attempts, and no escalation on any attempt. -/
theorem c4_counterexample :
    process_assignment cfg0 envDeliveryFail s1 =
      (Outcome.raised "Error sending feedback to GHL.",
        [Effect.openai_create, Effect.openai_list,
          Effect.post_ghl "url-day-1" "ok"])
    ∧ (process_assignment cfg0 envDeliveryFail s1).2.countP isGhl = 1
    ∧ (process_assignment cfg0 envDeliveryFail s1).2.countP isSlack = 0
    ∧ (process_assignment cfg0 envDeliveryFail s1).2.countP isFailsafe = 0 := by
  decide
